import Mathlib

/-!
Shallow embedding of the ColorPickerNG color picker (`cpng.py`) and proofs of
the specified properties: the colorimetric conversion pipeline, the
cross-platform capture strategy chain, the sampling loop state machine
(freeze, change-detection cache, rate limiting) and the bounded history store
with palette persistence.

Machine reals of the Python source are modelled over `ℚ`: every arithmetic
operation appearing in the modelled functions (additions, multiplications,
divisions, comparisons, `%`, `round`) is exact rational arithmetic there, so
the rational model coincides with the ideal real-number reading of the same
formulas.  The only genuinely irrational operations (`math.sqrt`/`math.acos`
in the non-achromatic HSI hue branch) are abstracted by an explicit function
parameter; no verified property depends on their values, and the guard that
decides whether that branch runs (`den == 0`) is modelled exactly (for the
nonnegative radicand, `sqrt den2 = 0` iff `den2 = 0`).
-/

namespace CPNG

/-- Python's builtin `round`: round half to even (banker's rounding), as used
by every conversion function in `cpng.py`. -/
def pyRound (q : ℚ) : ℤ :=
  let f : ℤ := ⌊q⌋
  let frac : ℚ := q - f
  if frac < 1/2 then f
  else if 1/2 < frac then f + 1
  else if f % 2 = 0 then f else f + 1

/-- Checked division: Python raises `ZeroDivisionError` on a zero denominator,
so a division in the source is modelled as returning `none` exactly when the
denominator is zero.  A conversion function returns `some` iff no division by
zero occurred when executing it. -/
def cdiv (a b : ℚ) : Option ℚ :=
  if b = 0 then none else some (a / b)

/-- Python's float modulo (`x % y`): result has the sign of `y`;
`x % y = x - y * floor (x / y)`.  Used by the `% 6` in the hue formulas. -/
def pyFMod (x y : ℚ) : ℚ :=
  x - y * (⌊x / y⌋ : ℚ)

/-- Decimal digit characters of `n`, most significant first, with explicit
fuel (the recursion of Python's `str(int)`); `natToDecChars` supplies enough
fuel. -/
def natToDecCharsAux : ℕ → ℕ → List Char
  | 0, _ => []
  | fuel + 1, n =>
    if n < 10 then [Char.ofNat (48 + n)]
    else natToDecCharsAux fuel (n / 10) ++ [Char.ofNat (48 + n % 10)]

/-- Decimal representation of a natural number, as Python's `str`. -/
def natToDecChars (n : ℕ) : List Char := natToDecCharsAux (n + 1) n

/-- Numeric value of a list of decimal digit characters, as Python's
`int(...)` applied to a digit string (the regex groups in `toggle_freeze`). -/
def decCharsToNat (cs : List Char) : ℕ :=
  cs.foldl (fun a c => a * 10 + (c.toNat - 48)) 0

/-- Uppercase hexadecimal digit character for `n < 16`. -/
def hexDigitU (n : ℕ) : Char :=
  if n < 10 then Char.ofNat (48 + n) else Char.ofNat (55 + n)

/-- Uppercase hexadecimal digit characters of `n`, most significant first,
with explicit fuel; `natToHexChars` supplies enough fuel. -/
def natToHexCharsAux : ℕ → ℕ → List Char
  | 0, _ => []
  | fuel + 1, n =>
    if n < 16 then [hexDigitU n]
    else natToHexCharsAux fuel (n / 16) ++ [hexDigitU (n % 16)]

/-- Uppercase hexadecimal representation of a natural number. -/
def natToHexChars (n : ℕ) : List Char := natToHexCharsAux (n + 1) n

/-- Python's format spec `{n:02X}`: uppercase hexadecimal, left-padded with
zeros to width 2. -/
def pyFormat02X (n : ℕ) : List Char :=
  let s := natToHexChars n
  List.replicate (2 - s.length) '0' ++ s

/-- Model of `rgb_to_hsl` from `cpng.py`, with the formatted percentages kept as the
rounded integers `(H, S, L)` that the f-string interpolates. -/
def rgbToHsl (r g b : ℕ) : Option (ℤ × ℤ × ℤ) :=
  let r' : ℚ := (r : ℚ) / 255
  let g' : ℚ := (g : ℚ) / 255
  let b' : ℚ := (b : ℚ) / 255
  let cmax := max r' (max g' b')
  let cmin := min r' (min g' b')
  let delta := cmax - cmin
  let l := (cmax + cmin) / 2
  if delta = 0 then
    some (0, 0, pyRound (l * 100))
  else
    (if l > 1/2 then cdiv delta (2 - cmax - cmin) else cdiv delta (cmax + cmin)).bind fun s =>
    (if cmax = r' then (cdiv (g' - b') delta).map (fun q => pyFMod q 6)
     else if cmax = g' then (cdiv (b' - r') delta).map (fun q => q + 2)
     else (cdiv (r' - g') delta).map (fun q => q + 4)).bind fun h0 =>
    some (pyRound (h0 * 60), pyRound (s * 100), pyRound (l * 100))

/-- Model of `rgb_to_hsv` from `cpng.py`, as rounded integers `(H, S, V)`. -/
def rgbToHsv (r g b : ℕ) : Option (ℤ × ℤ × ℤ) :=
  let r' : ℚ := (r : ℚ) / 255
  let g' : ℚ := (g : ℚ) / 255
  let b' : ℚ := (b : ℚ) / 255
  let cmax := max r' (max g' b')
  let cmin := min r' (min g' b')
  let delta := cmax - cmin
  (if delta = 0 then some (0 : ℚ)
   else if cmax = r' then (cdiv (g' - b') delta).map (fun q => pyFMod q 6)
   else if cmax = g' then (cdiv (b' - r') delta).map (fun q => q + 2)
   else (cdiv (r' - g') delta).map (fun q => q + 4)).bind fun h0 =>
  (if cmax = 0 then some (0 : ℚ) else cdiv delta cmax).bind fun s =>
  some (pyRound (h0 * 60), pyRound (s * 100), pyRound (cmax * 100))

/-- Model of `rgb_to_hsi` from `cpng.py`, as rounded integers `(H, S, I)`.

The source computes `den = sqrt((r-g)^2 + (r-b)*(g-b))`, branches on
`den == 0`, and otherwise takes `theta = acos(clamp(num/den, -1, 1))`,
mirrored to `2*pi - theta` when `b > g` and converted to degrees.  The
radicand is nonnegative (it equals half the sum of squared pairwise channel
differences), so `den = 0` iff the radicand is zero: the guard is modelled
exactly on the radicand `den2`.  The irrational quantity
`degrees(acos(clamp(num / sqrt den2, -1, 1)))` is abstracted as the parameter
`acosDeg num den2`; `degrees(2*pi - theta) = 360 - degrees(theta)` is kept
concrete. -/
def rgbToHsi (acosDeg : ℚ → ℚ → ℚ) (r g b : ℕ) : Option (ℤ × ℤ × ℤ) :=
  let r' : ℚ := (r : ℚ) / 255
  let g' : ℚ := (g : ℚ) / 255
  let b' : ℚ := (b : ℚ) / 255
  let i := (r' + g' + b') / 3
  (if i = 0 then some (0 : ℚ)
   else (cdiv (min r' (min g' b')) i).map (fun t => 1 - t)).bind fun s =>
  let num := (1/2 : ℚ) * ((r' - g') + (r' - b'))
  let den2 := (r' - g') ^ 2 + (r' - b') * (g' - b')
  let hDeg : ℚ :=
    if den2 = 0 then 0
    else if b' ≤ g' then acosDeg num den2
    else 360 - acosDeg num den2
  some (pyRound hDeg, pyRound (s * 100), pyRound (i * 100))

/-- Model of `rgb_to_cmyk` from `cpng.py`, as rounded integers `(C, M, Y, K)`. -/
def rgbToCmyk (r g b : ℕ) : Option (ℤ × ℤ × ℤ × ℤ) :=
  let r' : ℚ := (r : ℚ) / 255
  let g' : ℚ := (g : ℚ) / 255
  let b' : ℚ := (b : ℚ) / 255
  let k := 1 - max r' (max g' b')
  if k = 1 then
    some (0, 0, 0, pyRound (k * 100))
  else
    (cdiv (1 - r' - k) (1 - k)).bind fun c =>
    (cdiv (1 - g' - k) (1 - k)).bind fun m =>
    (cdiv (1 - b' - k) (1 - k)).bind fun y =>
    some (pyRound (c * 100), pyRound (m * 100), pyRound (y * 100), pyRound (k * 100))

/-- Model of `rgb_to_ycbcr` from `cpng.py` (BT.601-style integer formula), as rounded
integers; the decimal coefficient literals of the source are taken at face
value as rationals. -/
def rgbToYcbcr (r g b : ℕ) : ℤ × ℤ × ℤ :=
  let y : ℚ := 16 + (65738/1000 * r + 129057/1000 * g + 25064/1000 * b) / 256
  let cb : ℚ := 128 + (-(37945/1000) * r - 74494/1000 * g + 112439/1000 * b) / 256
  let cr : ℚ := 128 + (112439/1000 * r - 94154/1000 * g - 18285/1000 * b) / 256
  (pyRound y, pyRound cb, pyRound cr)

/-- The `HEX/HTML` entry of `get_color_values`:
the f-string `#{r:02X}{g:02X}{b:02X}`. -/
def hexHtmlStr (r g b : ℕ) : String :=
  String.mk ('#' :: (pyFormat02X r ++ pyFormat02X g ++ pyFormat02X b))

/-- The characters of the `RGB` entry of `get_color_values`:
the f-string `RGB({r}, {g}, {b})`. -/
def rgbStrChars (r g b : ℕ) : List Char :=
  'R' :: 'G' :: 'B' :: '(' ::
    (natToDecChars r ++ ',' :: ' ' ::
      (natToDecChars g ++ ',' :: ' ' ::
        (natToDecChars b ++ [')'])))

/-- The `RGB` entry of `get_color_values` as a string. -/
def rgbStr (r g b : ℕ) : String := String.mk (rgbStrChars r g b)

/-- The Color Representation Set produced by `get_color_values`.

The Python dict also carries `HSI`, `CIE LAB`, `CIELCh` and `CIE XYZ`
entries; those conversions need irrational arithmetic (`acos`, fractional
powers, cube roots) and, like the fields kept here, are pure functions of
`(r, g, b)` alone — no verified property depends on their values, so the
record carries the representations the properties reference (`rgbToHsi`
above models the HSI conversion separately for the achromatic-safety
property). -/
structure ColorValues where
  hexHtml : String
  rgb : String
  hsl : Option (ℤ × ℤ × ℤ)
  hsv : Option (ℤ × ℤ × ℤ)
  cmyk : Option (ℤ × ℤ × ℤ × ℤ)
  ycbcr : ℤ × ℤ × ℤ
deriving DecidableEq, Repr

/-- Model of `get_color_values` from `cpng.py`. -/
def getColorValues (r g b : ℕ) : ColorValues :=
  { hexHtml := hexHtmlStr r g b
    rgb := rgbStr r g b
    hsl := rgbToHsl r g b
    hsv := rgbToHsv r g b
    cmyk := rgbToCmyk r g b
    ycbcr := rgbToYcbcr r g b }

/-! ### Capture strategy chain

The platform readers shell out to OS facilities; each external step's outcome
is an input of the model.  `none` (or `.error`) models any exception, nonzero
exit status, missing executable or unmatched output at that step, exactly the
conditions under which the source falls through. -/

/-- Outcomes of the external capture collaborators invoked by the platform
readers in `cpng.py`. -/
structure CaptureEnv where
  /-- Outcome of `get_color_windows`: either the pixel triple it returns, or the
  exception it re-raises (`except ... raise`). -/
  winResult : Except Unit (ℕ × ℕ × ℕ)
  /-- macOS: AppleScript mouse-position query (`none` = fallback `800, 600`
  position is used; the position never influences the returned color). -/
  macMousePos : Option (ℤ × ℤ)
  /-- macOS: `screencapture` succeeded and produced a nonempty file. -/
  macCaptureOk : Bool
  /-- macOS: pixel triple recovered from the `sips` output regex
  (`none` = exception, or no regex match). -/
  macSipsResult : Option (ℕ × ℕ × ℕ)
  /-- macOS: pixel triple read via PIL (`none` = import error or exception). -/
  macPilResult : Option (ℕ × ℕ × ℕ)
  /-- Linux: mouse position parsed from `xdotool` (`none` = exception or no
  regex match; the source then returns the fallback directly). -/
  linuxMousePos : Option (ℕ × ℕ)
  /-- Linux: pixel triple parsed from the ImageMagick `convert` output
  (`none` = exception or no regex match). -/
  linuxConvertResult : Option (ℕ × ℕ × ℕ)
  /-- Linux: pixel triple read via python-Xlib (`none` = import error,
  exception, or short data). -/
  linuxXlibResult : Option (ℕ × ℕ × ℕ)

/-- Model of `get_color_fallback` from `cpng.py`: deterministic black. -/
def getColorFallback : ℕ × ℕ × ℕ := (0, 0, 0)

/-- Model of `get_color_windows` from `cpng.py`: returns the GetPixel triple or
re-raises the exception to the dispatcher. -/
def getColorWindows (env : CaptureEnv) : Except Unit (ℕ × ℕ × ℕ) :=
  env.winResult

/-- Model of `get_color_macos` from `cpng.py`: screenshot, then `sips`, then PIL, each
failure absorbed internally, bottoming out at the fallback.  The mouse
position only selects the capture region and never affects the result. -/
def getColorMacos (env : CaptureEnv) : ℕ × ℕ × ℕ :=
  if !env.macCaptureOk then getColorFallback
  else
    match env.macSipsResult with
    | some rgb => rgb
    | none =>
      match env.macPilResult with
      | some rgb => rgb
      | none => getColorFallback

/-- Model of `get_color_linux` from `cpng.py`: `xdotool` position, then
ImageMagick, then Xlib; every modelled failure is handled internally and
degrades to the fallback. -/
def getColorLinux (env : CaptureEnv) : ℕ × ℕ × ℕ :=
  match env.linuxMousePos with
  | none => getColorFallback
  | some _ =>
    match env.linuxConvertResult with
    | some rgb => rgb
    | none =>
      match env.linuxXlibResult with
      | some rgb => rgb
      | none => getColorFallback

/-- Model of `get_platform_specific_cursor_color` from `cpng.py`: platform dispatch
with a surrounding `try/except` that converts any escaped exception into the
fallback; unknown platforms take the fallback directly. -/
def getPlatformSpecificCursorColor (system : String) (env : CaptureEnv) :
    ℕ × ℕ × ℕ :=
  if system = "Windows" then
    match getColorWindows env with
    | .ok rgb => rgb
    | .error _ => getColorFallback
  else if system = "Darwin" then getColorMacos env
  else if system = "Linux" then getColorLinux env
  else getColorFallback

/-! ### The `toggle_freeze` regular expression

`toggle_freeze` re-parses the formatted `RGB(r, g, b)` string with
`re.search` of the pattern `RGB\((\d+), (\d+), (\d+)\)`.  `re.search` tries
the pattern at each successive start position; at a given position the match
is literal text around three greedy `\d+` groups.  Greedy digit matching is
`takeWhile isDigit` here: backtracking cannot produce a different outcome,
since surrendering a digit makes the following literal (`,` or `)`) face a
digit and fail again. -/

/-- Attempt to match `RGB\((\d+), (\d+), (\d+)\)` at the start of `s`. -/
def parseRGBAt (s : List Char) : Option (ℕ × ℕ × ℕ) :=
  match s with
  | 'R' :: 'G' :: 'B' :: '(' :: rest =>
    let d1 := rest.takeWhile Char.isDigit
    let rest1 := rest.dropWhile Char.isDigit
    if d1 = [] then none else
    match rest1 with
    | ',' :: ' ' :: rest2 =>
      let d2 := rest2.takeWhile Char.isDigit
      let rest3 := rest2.dropWhile Char.isDigit
      if d2 = [] then none else
      match rest3 with
      | ',' :: ' ' :: rest4 =>
        let d3 := rest4.takeWhile Char.isDigit
        let rest5 := rest4.dropWhile Char.isDigit
        if d3 = [] then none else
        match rest5 with
        | ')' :: _ => some (decCharsToNat d1, decCharsToNat d2, decCharsToNat d3)
        | _ => none
      | _ => none
    | _ => none
  | _ => none

/-- Model of `re.search` of the freeze pattern: first match over successive start
positions. -/
def reSearchRGB : List Char → Option (ℕ × ℕ × ℕ)
  | [] => none
  | c :: rest =>
    match parseRGBAt (c :: rest) with
    | some rgb => some rgb
    | none => reSearchRGB rest

/-! ### Picker state and history store -/

/-- The `selected` display field of a history entry.  `add_to_history`
stores its first argument there: a representation string in the copy flow,
but the whole imported `values` dict in the palette-load flow (Python is
dynamically typed, so both occur). -/
inductive Selected where
  | str : String → Selected
  | dict : ColorValues → Selected
deriving DecidableEq, Repr

/-- One entry of `self.history`. -/
structure HistoryEntry where
  hex : String
  values : ColorValues
  selected : Selected
deriving DecidableEq, Repr

/-- The mutable `ColorPicker` state touched by the modelled operations:
`freeze_var`, `frozen_color`, `history`, the change-detection cache
(`last_color`, `last_color_values`) and the rate-limit timestamp. -/
structure PickerState where
  freezeVar : Bool
  frozenColor : ℕ × ℕ × ℕ
  history : List HistoryEntry
  lastColor : ℤ × ℤ × ℤ
  lastColorValues : Option ColorValues
  lastUpdateTime : ℚ
deriving DecidableEq, Repr

/-- The state built by `ColorPicker.__init__`: live, black frozen color,
empty history, sentinel cache `(-1, -1, -1)`, empty cached dict, zero
timestamp. -/
def initialPickerState : PickerState :=
  { freezeVar := false
    frozenColor := (0, 0, 0)
    history := []
    lastColor := (-1, -1, -1)
    lastColorValues := none
    lastUpdateTime := 0 }

/-- The history entry built by `add_to_history`: the stored `values` dict is
recomputed from the frozen color when frozen, else taken from the
change-detection cache (`last_color_values`, falsy `{}` modelled as `none`),
else freshly sampled at the cursor. -/
def committedEntry (st : PickerState) (value : Selected) (hexColor : String)
    (cursorSample : ℕ × ℕ × ℕ) : HistoryEntry :=
  { hex := hexColor
    values :=
      if st.freezeVar then
        getColorValues st.frozenColor.1 st.frozenColor.2.1 st.frozenColor.2.2
      else
        match st.lastColorValues with
        | some v => v
        | none => getColorValues cursorSample.1 cursorSample.2.1 cursorSample.2.2
    selected := value }

/-- Model of `ColorPicker.add_to_history`: insert at the head, then pop the tail if
the length exceeds 50 (the UI refresh does not touch the model state). -/
def addToHistory (st : PickerState) (value : Selected) (hexColor : String)
    (cursorSample : ℕ × ℕ × ℕ) : PickerState :=
  let h := committedEntry st value hexColor cursorSample :: st.history
  { st with history := if h.length > 50 then h.dropLast else h }

/-- A sequence of `add_to_history` commits. -/
def commitSeq (st : PickerState)
    (ops : List (Selected × String × (ℕ × ℕ × ℕ))) : PickerState :=
  ops.foldl (fun s op => addToHistory s op.1 op.2.1 op.2.2) st

/-- Model of `ColorPicker.delete_history_entry`: delete at `index` when
`0 <= index < len(history)`, otherwise do nothing. -/
def deleteHistoryEntry (st : PickerState) (index : ℤ) : PickerState :=
  if 0 ≤ index ∧ index < (st.history.length : ℤ) then
    { st with history := st.history.eraseIdx index.toNat }
  else st

/-- Model of `ColorPicker.toggle_freeze`: flip `freeze_var`; on the LIVE → FROZEN
transition, sample the cursor, format it through `get_color_values` and
re-parse the `RGB` string with the regex; only a successful match updates
`frozen_color`. -/
def toggleFreeze (st : PickerState) (cursorSample : ℕ × ℕ × ℕ) : PickerState :=
  let newValue := !st.freezeVar
  let st1 := { st with freezeVar := newValue }
  if newValue then
    let colors := getColorValues cursorSample.1 cursorSample.2.1 cursorSample.2.2
    match reSearchRGB colors.rgb.data with
    | some rgb => { st1 with frozenColor := rgb }
    | none => st1
  else st1

/-- Observable outcome of one `update_color` tick. -/
structure TickResult where
  state : PickerState
  /-- The Color Representation Set passed to `update_color_displays`
  (`none` when the tick was a rate-limited no-op, or when the display update
  raised). -/
  displayed : Option ColorValues
  /-- Whether `get_platform_specific_cursor_color` was invoked. -/
  sampledCursor : Bool
  /-- Whether `root.after(20, ...)` was reached (it sits after the
  `try/except`, outside it, so every path reaches it). -/
  rescheduled : Bool
deriving DecidableEq, Repr

/-- Model of `ColorPicker.update_color`: one timer tick at timestamp `now`.
`cursorSample` is what `get_platform_specific_cursor_color` would return if
invoked; `displayRaises` injects an exception inside the `try` block at the
`update_color_displays` call (the only modelled fallible step: capture never
raises and the conversions are pure), which the `except` swallows. -/
def updateColor (st : PickerState) (now : ℚ) (cursorSample : ℕ × ℕ × ℕ)
    (displayRaises : Bool) : TickResult :=
  if now - st.lastUpdateTime ≥ 1/20 then
    let st1 := { st with lastUpdateTime := now }
    if st1.freezeVar then
      let colors := getColorValues st1.frozenColor.1 st1.frozenColor.2.1 st1.frozenColor.2.2
      { state := st1
        displayed := if displayRaises then none else some colors
        sampledCursor := false
        rescheduled := true }
    else
      let r := cursorSample.1
      let g := cursorSample.2.1
      let b := cursorSample.2.2
      let st2 :=
        if (r : ℤ) ≠ st1.lastColor.1 ∨ (g : ℤ) ≠ st1.lastColor.2.1 ∨
            (b : ℤ) ≠ st1.lastColor.2.2 then
          { st1 with lastColor := ((r : ℤ), (g : ℤ), (b : ℤ))
                     lastColorValues := some (getColorValues r g b) }
        else st1
      { state := st2
        displayed := if displayRaises then none else st2.lastColorValues
        sampledCursor := true
        rescheduled := true }
  else
    { state := st, displayed := none, sampledCursor := false, rescheduled := true }

/-! ### Palette persistence -/

/-- One element of the parsed palette JSON array: either a well-formed
`{hex, values}` object, or a malformed element whose key access raises. -/
inductive PaletteItem where
  | good : String → ColorValues → PaletteItem
  | malformed : PaletteItem
deriving DecidableEq, Repr

/-- Whether a palette element has the `hex` and `values` keys. -/
def isGoodItem : PaletteItem → Bool
  | .good _ _ => true
  | .malformed => false

/-- The commit `load_palette` performs for one well-formed element:
`add_to_history(values, hex)` — the dict lands in the `selected` slot. -/
def commitItem (cursorSample : ℕ × ℕ × ℕ) (st : PickerState) :
    PaletteItem → PickerState
  | .good hexColor values => addToHistory st (.dict values) hexColor cursorSample
  | .malformed => st

/-- The `for color_entry in reversed(palette_data)` loop of `load_palette`:
commits each element in turn until a malformed element raises; the exception
is caught at the function boundary (error dialog, flag `true`), leaving the
commits already made in place. -/
def processPaletteItems (cursorSample : ℕ × ℕ × ℕ) :
    PickerState → List PaletteItem → PickerState × Bool
  | st, [] => (st, false)
  | st, .malformed :: _ => (st, true)
  | st, .good hexColor values :: rest =>
    processPaletteItems cursorSample
      (addToHistory st (.dict values) hexColor cursorSample) rest

/-- Model of `load_palette` from `cpng.py`: `parsed` is the outcome of
`open`/`json.load` (`.error` = any read or parse exception, caught before the
loop commits anything); the returned flag records whether the error dialog
was shown. -/
def loadPalette (st : PickerState) (cursorSample : ℕ × ℕ × ℕ)
    (parsed : Except Unit (List PaletteItem)) : PickerState × Bool :=
  match parsed with
  | .error _ => (st, true)
  | .ok items => processPaletteItems cursorSample st items.reverse

/-- The palette array `save_palette` writes: the ordered `{hex, values}`
projection of the history. -/
def exportPalette (history : List HistoryEntry) : List (String × ColorValues) :=
  history.map fun e => (e.hex, e.values)

/-- Model of `save_palette` from `cpng.py`: empty history shows an info box and
returns; otherwise the extraction and `json.dump` read the history but never
assign to it; `writeOk = false` models an exception while writing (error
dialog).  In either case the in-memory state is returned untouched. -/
def savePalette (st : PickerState) (writeOk : Bool) : PickerState × Bool :=
  if st.history = [] then (st, false) else (st, !writeOk)

/-- Re-importing a previously exported palette: wrap every exported pair as a
well-formed JSON element and run `load_palette` on it. -/
def importExported (st : PickerState) (cursorSample : ℕ × ℕ × ℕ)
    (entries : List (String × ColorValues)) : PickerState × Bool :=
  loadPalette st cursorSample (.ok (entries.map fun e => PaletteItem.good e.1 e.2))

/-! ### Definitions taken from the specification's words -/

/-- Modelled from the spec: the two-digit uppercase zero-padded hexadecimal
encoding of one channel in `[0, 255]` (high nibble then low nibble), for
comparison with the source's format-spec output. -/
def specHexByte (n : ℕ) : List Char :=
  [hexDigitU (n / 16), hexDigitU (n % 16)]

/-- Modelled from the spec: `#` followed by the channel encodings in
R, G, B order. -/
def specHexHtml (r g b : ℕ) : String :=
  String.mk ('#' :: (specHexByte r ++ specHexByte g ++ specHexByte b))

/-! ### Concrete fixtures used to instantiate the theorems -/

/-- A picker whose change-detection cache holds the representations of pure
black (as after one live tick over a black pixel), with empty history. -/
def c1State : PickerState :=
  { initialPickerState with lastColorValues := some (getColorValues 0 0 0) }

/-- A committed history entry for pure red, as produced by the copy flow. -/
def c1OrigEntry : HistoryEntry :=
  { hex := (getColorValues 255 0 0).hexHtml
    values := getColorValues 255 0 0
    selected := .str (getColorValues 255 0 0).hexHtml }

/-- Same cache situation for the palette-load counterexample. -/
def c2State : PickerState :=
  { initialPickerState with lastColorValues := some (getColorValues 0 0 0) }

/-- A palette whose first element is malformed and whose second is
well-formed; `reversed` iteration processes the well-formed one first. -/
def c2Items : List PaletteItem :=
  [PaletteItem.malformed,
   PaletteItem.good (getColorValues 255 0 0).hexHtml (getColorValues 255 0 0)]

/-- A capture environment in which every platform strategy and sub-strategy
fails. -/
def allFailEnv : CaptureEnv :=
  { winResult := .error ()
    macMousePos := none
    macCaptureOk := false
    macSipsResult := none
    macPilResult := none
    linuxMousePos := some (100, 200)
    linuxConvertResult := none
    linuxXlibResult := none }

/-- A short commit sequence for the capacity witness. -/
def c3Ops : List (Selected × String × (ℕ × ℕ × ℕ)) :=
  [(.str "#000000", "#000000", (0, 0, 0)),
   (.str "#FF0000", "#FF0000", (255, 0, 0))]

/-- A picker with a two-entry history for the delete witness. -/
def c8State : PickerState :=
  { initialPickerState with
      history := [c1OrigEntry, { c1OrigEntry with hex := "#000000" }] }

/-- A frozen picker (as after a LIVE → FROZEN transition over pure red)
whose cache still holds black, for the freeze witness. -/
def c4State : PickerState :=
  { initialPickerState with
      freezeVar := true
      frozenColor := (255, 0, 0)
      lastColorValues := some (getColorValues 0 0 0)
      lastUpdateTime := 10 }

/-- A live picker mid-run for the rate-limit witness. -/
def c7State : PickerState :=
  { initialPickerState with lastUpdateTime := 10 }

/-! ## Helper lemmas -/

theorem addToHistory_history (st : PickerState) (v : Selected) (hx : String)
    (s : ℕ × ℕ × ℕ) :
    (addToHistory st v hx s).history =
      if st.history.length + 1 > 50
      then (committedEntry st v hx s :: st.history).dropLast
      else committedEntry st v hx s :: st.history := rfl

theorem addToHistory_length_le (st : PickerState) (v : Selected) (hx : String)
    (s : ℕ × ℕ × ℕ) (h : st.history.length ≤ 50) :
    (addToHistory st v hx s).history.length ≤ 50 := by
  rw [addToHistory_history]
  split
  · simp only [List.length_dropLast, List.length_cons]
    omega
  · simp only [List.length_cons]
    omega

theorem commitSeq_length_le (ops : List (Selected × String × (ℕ × ℕ × ℕ))) :
    ∀ st : PickerState, st.history.length ≤ 50 →
      (commitSeq st ops).history.length ≤ 50 := by
  induction ops with
  | nil => intro st h; exact h
  | cons op rest ih =>
    intro st h
    exact ih (addToHistory st op.1 op.2.1 op.2.2) (addToHistory_length_le _ _ _ _ h)

theorem processPaletteItems_eq (cursorSample : ℕ × ℕ × ℕ) :
    ∀ (l : List PaletteItem) (st : PickerState),
      processPaletteItems cursorSample st l =
        (List.foldl (commitItem cursorSample) st (l.takeWhile isGoodItem),
         !l.all isGoodItem) := by
  intro l
  induction l with
  | nil => intro st; rfl
  | cons item rest ih =>
    intro st
    cases item with
    | malformed => rfl
    | good hx v =>
      rw [processPaletteItems, ih]
      simp [isGoodItem, commitItem]

theorem updateColor_noop (st : PickerState) (now : ℚ) (sample : ℕ × ℕ × ℕ)
    (dr : Bool) (h : now - st.lastUpdateTime < 1/20) :
    updateColor st now sample dr =
      { state := st, displayed := none, sampledCursor := false,
        rescheduled := true } := by
  rw [updateColor, if_neg (not_le.mpr h)]

theorem updateColor_frozen (st : PickerState) (now : ℚ) (sample : ℕ × ℕ × ℕ)
    (dr : Bool) (hfr : st.freezeVar = true)
    (h : now - st.lastUpdateTime ≥ 1/20) :
    updateColor st now sample dr =
      { state := { st with lastUpdateTime := now }
        displayed :=
          if dr then none
          else some (getColorValues st.frozenColor.1 st.frozenColor.2.1
            st.frozenColor.2.2)
        sampledCursor := false
        rescheduled := true } := by
  rw [updateColor, if_pos h]
  simp [hfr]

theorem updateColor_rescheduled (st : PickerState) (now : ℚ)
    (sample : ℕ × ℕ × ℕ) (dr : Bool) :
    (updateColor st now sample dr).rescheduled = true := by
  rw [updateColor]
  dsimp only
  repeat' split
  all_goals rfl

theorem updateColor_lastUpdateTime (st : PickerState) (now : ℚ)
    (sample : ℕ × ℕ × ℕ) (dr : Bool) (h : now - st.lastUpdateTime ≥ 1/20) :
    (updateColor st now sample dr).state.lastUpdateTime = now := by
  rw [updateColor, if_pos h]
  dsimp only
  repeat' split
  all_goals rfl

theorem toggleFreeze_unfreeze (st : PickerState) (u : ℕ × ℕ × ℕ)
    (hfr : st.freezeVar = true) :
    toggleFreeze st u = { st with freezeVar := false } := by
  rw [toggleFreeze]
  simp [hfr]

theorem digitVal_ofNat : ∀ m < 10, (Char.ofNat (48 + m)).toNat - 48 = m := by
  decide

theorem isDigit_ofNat : ∀ m < 10, (Char.ofNat (48 + m)).isDigit = true := by
  decide

theorem natToDecCharsAux_isDigit :
    ∀ fuel n, n < fuel → ∀ c ∈ natToDecCharsAux fuel n, c.isDigit = true := by
  intro fuel
  induction fuel with
  | zero => intro n h; omega
  | succ fuel ih =>
    intro n h c hc
    rw [natToDecCharsAux] at hc
    split at hc
    · rename_i h10
      rw [List.mem_singleton] at hc
      subst hc
      exact isDigit_ofNat n h10
    · rw [List.mem_append, List.mem_singleton] at hc
      rcases hc with hc | hc
      · exact ih (n / 10) (by omega) c hc
      · subst hc
        exact isDigit_ofNat (n % 10) (by omega)

theorem natToDecChars_isDigit (n : ℕ) :
    ∀ c ∈ natToDecChars n, c.isDigit = true :=
  natToDecCharsAux_isDigit (n + 1) n (Nat.lt_succ_self n)

theorem natToDecCharsAux_ne_nil :
    ∀ fuel n, n < fuel → natToDecCharsAux fuel n ≠ [] := by
  intro fuel
  induction fuel with
  | zero => intro n h; omega
  | succ fuel ih =>
    intro n h
    rw [natToDecCharsAux]
    split
    · simp
    · simp [ih (n / 10) (by omega)]

theorem natToDecChars_ne_nil (n : ℕ) : natToDecChars n ≠ [] :=
  natToDecCharsAux_ne_nil (n + 1) n (Nat.lt_succ_self n)

theorem decCharsToNat_append_singleton (xs : List Char) (c : Char) :
    decCharsToNat (xs ++ [c]) = decCharsToNat xs * 10 + (c.toNat - 48) := by
  simp [decCharsToNat, List.foldl_append]

theorem decCharsToNat_natToDecCharsAux :
    ∀ fuel n, n < fuel → decCharsToNat (natToDecCharsAux fuel n) = n := by
  intro fuel
  induction fuel with
  | zero => intro n h; omega
  | succ fuel ih =>
    intro n h
    rw [natToDecCharsAux]
    split
    · rename_i h10
      have hv := digitVal_ofNat n h10
      simp [decCharsToNat, hv]
    · rename_i h10
      rw [decCharsToNat_append_singleton, ih (n / 10) (by omega),
        digitVal_ofNat (n % 10) (by omega)]
      omega

theorem decCharsToNat_natToDecChars (n : ℕ) :
    decCharsToNat (natToDecChars n) = n :=
  decCharsToNat_natToDecCharsAux (n + 1) n (Nat.lt_succ_self n)

theorem takeWhile_digits (xs : List Char) (y : Char) (ys : List Char)
    (hxs : ∀ c ∈ xs, c.isDigit = true) (hy : y.isDigit = false) :
    (xs ++ y :: ys).takeWhile Char.isDigit = xs ∧
    (xs ++ y :: ys).dropWhile Char.isDigit = y :: ys := by
  induction xs with
  | nil =>
    constructor
    · simp [List.takeWhile_cons, hy]
    · simp [List.dropWhile_cons, hy]
  | cons x xs ih =>
    have hx : x.isDigit = true := hxs x (List.mem_cons_self x xs)
    have hxs2 : ∀ c ∈ xs, c.isDigit = true :=
      fun c hc => hxs c (List.mem_cons_of_mem x hc)
    obtain ⟨h1, h2⟩ := ih hxs2
    constructor
    · simp [List.takeWhile_cons, hx, h1]
    · simp [List.dropWhile_cons, hx, h2]

theorem parseRGBAt_format (r g b : ℕ) :
    parseRGBAt (rgbStrChars r g b) = some (r, g, b) := by
  obtain ⟨ht1, hd1⟩ := takeWhile_digits (natToDecChars r) ','
    (' ' :: (natToDecChars g ++ ',' :: ' ' :: (natToDecChars b ++ [')'])))
    (natToDecChars_isDigit r) (by decide)
  obtain ⟨ht2, hd2⟩ := takeWhile_digits (natToDecChars g) ','
    (' ' :: (natToDecChars b ++ [')']))
    (natToDecChars_isDigit g) (by decide)
  obtain ⟨ht3, hd3⟩ := takeWhile_digits (natToDecChars b) ')' []
    (natToDecChars_isDigit b) (by decide)
  rw [rgbStrChars, parseRGBAt]
  simp only [ht1, hd1, ht2, hd2, ht3, hd3,
    if_neg (natToDecChars_ne_nil r), if_neg (natToDecChars_ne_nil g),
    if_neg (natToDecChars_ne_nil b),
    decCharsToNat_natToDecChars]

theorem reSearchRGB_format (r g b : ℕ) :
    reSearchRGB (rgbStrChars r g b) = some (r, g, b) := by
  have h := parseRGBAt_format r g b
  rw [rgbStrChars] at h ⊢
  rw [reSearchRGB, h]

theorem toggleFreeze_freeze (st : PickerState) (s : ℕ × ℕ × ℕ)
    (hfr : st.freezeVar = false) :
    toggleFreeze st s = { st with freezeVar := true, frozenColor := s } := by
  obtain ⟨r, g, b⟩ := s
  rw [toggleFreeze]
  simp only [hfr, Bool.not_false, if_true]
  have hdata : (getColorValues r g b).rgb.data = rgbStrChars r g b := rfl
  rw [hdata, reSearchRGB_format]

theorem pyRound_zero : pyRound 0 = 0 := by
  norm_num [pyRound]

theorem achromatic_hsl (n : ℕ) : ∃ s l, rgbToHsl n n n = some (0, s, l) := by
  rw [rgbToHsl]
  simp only [max_self, min_self, sub_self, if_pos rfl]
  exact ⟨0, _, rfl⟩

theorem achromatic_hsv (n : ℕ) : ∃ s v, rgbToHsv n n n = some (0, s, v) := by
  by_cases hr : (n : ℚ) / 255 = 0
  · refine ⟨0, 0, ?_⟩
    rw [rgbToHsv]
    simp [hr, cdiv, pyRound_zero]
  · refine ⟨0, pyRound ((n : ℚ) / 255 * 100), ?_⟩
    rw [rgbToHsv]
    simp [hr, cdiv, pyRound_zero]

theorem achromatic_hsi (acosDeg : ℚ → ℚ → ℚ) (n : ℕ) :
    ∃ s i, rgbToHsi acosDeg n n n = some (0, s, i) := by
  by_cases hr : (n : ℚ) / 255 = 0
  · refine ⟨0, 0, ?_⟩
    rw [rgbToHsi]
    simp [hr, pyRound_zero]
  · refine ⟨0, pyRound ((n : ℚ) / 255 * 100), ?_⟩
    rw [rgbToHsi]
    rw [show ((n : ℚ)/255 + (n : ℚ)/255 + (n : ℚ)/255)/3 = (n : ℚ)/255 from by ring]
    simp [hr, cdiv, div_self hr, pyRound_zero]

theorem achromatic_cmyk (n : ℕ) : (rgbToCmyk n n n).isSome = true := by
  rw [rgbToCmyk]
  simp only [max_self]
  by_cases hr : (n : ℚ) / 255 = 0
  · rw [if_pos (by rw [hr]; norm_num)]
    rfl
  · rw [if_neg (by intro h; exact hr (by linarith [h]))]
    simp only [cdiv, sub_sub_cancel, if_neg hr, Option.bind_some]
    rfl

set_option maxRecDepth 8192 in
theorem pyFormat02X_eq_specHexByte : ∀ n < 256, pyFormat02X n = specHexByte n := by
  decide

/-! ## Claim theorems -/

/-- Claim C1 (status: code bug).  Evaluation at the failing input: a history
holding one pure-red entry, in a picker whose change-detection cache holds
the representations of pure black.  Exporting yields the pair
`(#FF0000, values-of-red)`; re-importing the export into the same picker
(with an empty history) commits an entry that keeps the hex but whose stored
`values` are the cached black representations — `add_to_history` ignores
the loaded dict (which lands in the transient `selected` slot) and recomputes
`all_values` from the current frozen/cached color.  The ordered pairs of
hex and values therefore do not round-trip. -/
theorem c1_roundtrip_fails :
    exportPalette [c1OrigEntry] =
      [((getColorValues 255 0 0).hexHtml, getColorValues 255 0 0)] ∧
    exportPalette
        ((importExported c1State (0, 0, 0) (exportPalette [c1OrigEntry])).1.history) =
      [((getColorValues 255 0 0).hexHtml, getColorValues 0 0 0)] ∧
    getColorValues 0 0 0 ≠ getColorValues 255 0 0 := by
  refine ⟨rfl, rfl, fun h => absurd (congrArg ColorValues.hexHtml h) ?_⟩
  decide

/-- Claim C2, counterexample: loading a palette whose first JSON element is
malformed and whose second is well-formed.  The `reversed` loop commits the
well-formed entry first, then the malformed element raises; the exception is
caught and reported (flag `true`), but the already-committed entry stays:
the in-memory History Store is not left as it was. -/
theorem c2_load_not_atomic :
    (loadPalette c2State (0, 0, 0) (.ok c2Items)).2 = true ∧
    (loadPalette c2State (0, 0, 0) (.ok c2Items)).1.history ≠ c2State.history := by
  refine ⟨rfl, ?_⟩
  decide

/-- Claim C2, amended: a palette load or save failure is reported as a
non-fatal notice and aborts the rest of the operation, and a failure while
reading or parsing the file (before any entry is processed) leaves the
in-memory History Store unchanged; but a failure while processing an
individual entry leaves the entries already committed in place, so the store
reflects a partial import in that case.  Saving never mutates the store.
Formally: file-level failure returns the state unchanged with the error flag
set; saving returns the state unchanged; a load over parsed items commits
exactly the well-formed items of the reversed list up to the first malformed
one, and the error flag is set iff a malformed item is present. -/
theorem load_save_failure_boundary (st : PickerState) (sample : ℕ × ℕ × ℕ)
    (items : List PaletteItem) (w : Bool) :
    loadPalette st sample (.error ()) = (st, true) ∧
    (savePalette st w).1 = st ∧
    (loadPalette st sample (.ok items)).1 =
      List.foldl (commitItem sample) st (items.reverse.takeWhile isGoodItem) ∧
    (loadPalette st sample (.ok items)).2 = !items.reverse.all isGoodItem := by
  refine ⟨rfl, ?_, ?_, ?_⟩
  · rw [savePalette]
    split <;> rfl
  · rw [loadPalette, processPaletteItems_eq]
  · rw [loadPalette, processPaletteItems_eq]

/-- Claim C3: starting from any history of length at most 50, any sequence
of commits keeps the length at most 50; each commit inserts the new entry at
the head, and a commit from a full (length-50) store drops exactly the tail
(oldest) entry while a commit from a non-full store drops nothing. -/
theorem history_capacity_invariant (st : PickerState)
    (ops : List (Selected × String × (ℕ × ℕ × ℕ)))
    (v : Selected) (hx : String) (s : ℕ × ℕ × ℕ)
    (hlen : st.history.length ≤ 50) :
    (commitSeq st ops).history.length ≤ 50 ∧
    (addToHistory st v hx s).history.head? = some (committedEntry st v hx s) ∧
    (st.history.length < 50 →
      (addToHistory st v hx s).history = committedEntry st v hx s :: st.history) ∧
    (st.history.length = 50 →
      (addToHistory st v hx s).history =
        committedEntry st v hx s :: st.history.dropLast) := by
  refine ⟨commitSeq_length_le ops st hlen, ?_, ?_, ?_⟩
  · rw [addToHistory_history]
    split
    · rename_i hgt
      cases hh : st.history with
      | nil => rw [hh] at hgt; simp at hgt
      | cons a l => rfl
    · rfl
  · intro hlt
    rw [addToHistory_history, if_neg (by omega)]
  · intro heq
    rw [addToHistory_history, if_pos (by omega)]
    cases hh : st.history with
    | nil => rw [hh] at heq; simp at heq
    | cons a l => rfl

/-- Claim C5: when every platform strategy and sub-strategy fails (Windows
raises; `sips` and PIL both fail on macOS; ImageMagick and Xlib both fail on
Linux), the cursor capture returns exactly `(0, 0, 0)` on every platform
string, recognized or not, and no exception escapes (the dispatcher is a
total function into Color Samples by virtue of its boundary handler). -/
theorem capture_all_fail_black (system : String) (env : CaptureEnv)
    (hw : env.winResult = .error ())
    (hs : env.macSipsResult = none) (hp : env.macPilResult = none)
    (hc : env.linuxConvertResult = none) (hx : env.linuxXlibResult = none) :
    getPlatformSpecificCursorColor system env = (0, 0, 0) := by
  rw [getPlatformSpecificCursorColor, getColorWindows, getColorMacos,
    getColorLinux, hw, hs, hp, hc, hx]
  cases env.macCaptureOk <;> cases env.linuxMousePos <;>
    split_ifs <;> rfl

/-- Claim C7: a tick arriving before the 50 ms threshold since the last
effective tick is a no-op (state untouched, no cursor sampling, no display
update) that still reschedules; every tick — including one whose body raises
— reschedules; and an effective tick stamps the current time, so a follow-up
tick less than 50 ms later is a no-op (an action happens at most once per
50 ms of the supplied timestamps). -/
theorem tick_rate_limited (st : PickerState) (now now2 : ℚ)
    (sample sample2 : ℕ × ℕ × ℕ) (dr dr2 : Bool) :
    (now - st.lastUpdateTime < 1/20 →
      updateColor st now sample dr =
        { state := st, displayed := none, sampledCursor := false,
          rescheduled := true }) ∧
    (updateColor st now sample dr).rescheduled = true ∧
    (now - st.lastUpdateTime ≥ 1/20 →
      (updateColor st now sample dr).state.lastUpdateTime = now ∧
      (now2 - now < 1/20 →
        updateColor (updateColor st now sample dr).state now2 sample2 dr2 =
          { state := (updateColor st now sample dr).state, displayed := none,
            sampledCursor := false, rescheduled := true })) := by
  refine ⟨fun h => updateColor_noop st now sample dr h,
    updateColor_rescheduled st now sample dr, fun h => ⟨?_, fun h2 => ?_⟩⟩
  · exact updateColor_lastUpdateTime st now sample dr h
  · apply updateColor_noop
    rw [updateColor_lastUpdateTime st now sample dr h]
    exact h2

/-- Claim C8: `delete_history_entry` removes exactly the entry at `index`
when `0 ≤ index < length`, and for any out-of-range index (negative or at
least the length) it raises nothing and leaves the whole state unchanged. -/
theorem delete_history_semantics (st : PickerState) (i : ℤ) :
    (0 ≤ i → i < (st.history.length : ℤ) →
      (deleteHistoryEntry st i).history =
        st.history.take i.toNat ++ st.history.drop (i.toNat + 1)) ∧
    ((i < 0 ∨ (st.history.length : ℤ) ≤ i) → deleteHistoryEntry st i = st) := by
  constructor
  · intro h0 hlt
    rw [deleteHistoryEntry, if_pos ⟨h0, hlt⟩]
    simp [List.eraseIdx_eq_take_drop_succ]
  · intro h
    rw [deleteHistoryEntry, if_neg (by omega)]

/-- Claim C4: in the FROZEN state every effective tick displays exactly the
Color Representation Set computed from `frozen_color`, samples nothing, and
is independent of the live cursor sample and of the change-detection cache
(both are universally quantified and absent from the displayed value); and
unfreezing then freezing again with a fresh sample `s` stores `s` into
`frozen_color` — the regex re-parse always succeeds — so the next effective
tick displays the conversion of `s`, never the stale previous frozen
value. -/
theorem frozen_state_invariant (st : PickerState) (now now2 : ℚ)
    (sample sample2 u s : ℕ × ℕ × ℕ)
    (hfr : st.freezeVar = true)
    (h1 : now - st.lastUpdateTime ≥ 1/20)
    (h2 : now2 - st.lastUpdateTime ≥ 1/20) :
    ((updateColor st now sample false).displayed =
        some (getColorValues st.frozenColor.1 st.frozenColor.2.1
          st.frozenColor.2.2) ∧
      (updateColor st now sample false).sampledCursor = false ∧
      (updateColor st now sample false).displayed =
        (updateColor st now sample2 false).displayed) ∧
    ((toggleFreeze (toggleFreeze st u) s).freezeVar = true ∧
      (toggleFreeze (toggleFreeze st u) s).frozenColor = s ∧
      (updateColor (toggleFreeze (toggleFreeze st u) s) now2 sample2 false).displayed =
        some (getColorValues s.1 s.2.1 s.2.2)) := by
  have hu := toggleFreeze_unfreeze st u hfr
  have hf2 := toggleFreeze_freeze { st with freezeVar := false } s rfl
  have hst : toggleFreeze (toggleFreeze st u) s =
      { st with freezeVar := true, frozenColor := s } := by
    rw [hu, hf2]
  refine ⟨⟨?_, ?_, ?_⟩, ?_, ?_, ?_⟩
  · rw [updateColor_frozen st now sample false hfr h1]
    rfl
  · rw [updateColor_frozen st now sample false hfr h1]
  · rw [updateColor_frozen st now sample false hfr h1,
      updateColor_frozen st now sample2 false hfr h1]
  · rw [hst]
  · rw [hst]
  · rw [hst, updateColor_frozen { st with freezeVar := true, frozenColor := s }
      now2 sample2 false rfl h2]
    rfl

/-- Claim C6: for every achromatic input `r = g = b = n` in `[0, 255]`, the
HSL, HSV, HSI and CMYK conversions perform no division by zero (each returns
`some`, i.e. every guarding branch protects its division) and the computed
hue is 0 in each hue-bearing model, for every possible value of the
abstracted `acos`-based HSI hue branch (which is never reached). -/
theorem achromatic_safe (n : ℕ) (acosDeg : ℚ → ℚ → ℚ) (hn : n ≤ 255) :
    (∃ s l, rgbToHsl n n n = some (0, s, l)) ∧
    (∃ s v, rgbToHsv n n n = some (0, s, v)) ∧
    (∃ s i, rgbToHsi acosDeg n n n = some (0, s, i)) ∧
    (rgbToCmyk n n n).isSome = true :=
  ⟨achromatic_hsl n, achromatic_hsv n, achromatic_hsi acosDeg n,
    achromatic_cmyk n⟩

/-- Claim C9: for all channels in `[0, 255]`, the `HEX/HTML` representation
produced by `get_color_values` is `#` followed by the uppercase zero-padded
two-digit hexadecimal encoding of each channel in R, G, B order (the
spec-side encoding built from high and low nibbles). -/
theorem hexhtml_matches_spec (r g b : ℕ)
    (hr : r ≤ 255) (hg : g ≤ 255) (hb : b ≤ 255) :
    (getColorValues r g b).hexHtml = specHexHtml r g b := by
  have h1 := pyFormat02X_eq_specHexByte r (by omega)
  have h2 := pyFormat02X_eq_specHexByte g (by omega)
  have h3 := pyFormat02X_eq_specHexByte b (by omega)
  show hexHtmlStr r g b = specHexHtml r g b
  rw [hexHtmlStr, specHexHtml, h1, h2, h3]

/-- Claim C10: for all channels in `[0, 255]`, re-parsing the formatted
`RGB(r, g, b)` representation with the `toggle_freeze` regular expression
recovers exactly the original triple; consequently the match always succeeds
on the LIVE → FROZEN transition and `frozen_color` is always set to the
just-sampled cursor color, never silently left at its previous value. -/
theorem rgb_regex_roundtrip (st : PickerState) (r g b : ℕ)
    (hr : r ≤ 255) (hg : g ≤ 255) (hb : b ≤ 255)
    (hlive : st.freezeVar = false) :
    reSearchRGB (getColorValues r g b).rgb.data = some (r, g, b) ∧
    (toggleFreeze st (r, g, b)).freezeVar = true ∧
    (toggleFreeze st (r, g, b)).frozenColor = (r, g, b) := by
  refine ⟨reSearchRGB_format r g b, ?_, ?_⟩ <;>
    rw [toggleFreeze_freeze st (r, g, b) hlive]

/-! ## Witnesses -/

/-- Witness for C3 at the initial picker state and a concrete commit
sequence. -/
theorem history_capacity_witness :
    (commitSeq initialPickerState c3Ops).history.length ≤ 50 ∧
    (addToHistory initialPickerState (.str "w") "#123456" (1, 2, 3)).history.head? =
      some (committedEntry initialPickerState (.str "w") "#123456" (1, 2, 3)) :=
  ⟨(history_capacity_invariant initialPickerState c3Ops (.str "w") "#123456"
      (1, 2, 3) (by decide)).1,
   (history_capacity_invariant initialPickerState c3Ops (.str "w") "#123456"
      (1, 2, 3) (by decide)).2.1⟩

/-- Witness for C4 at a concrete frozen picker, tick time and samples. -/
theorem frozen_state_witness :
    (updateColor c4State 11 (7, 7, 7) false).displayed =
      some (getColorValues c4State.frozenColor.1 c4State.frozenColor.2.1
        c4State.frozenColor.2.2) ∧
    (toggleFreeze (toggleFreeze c4State (1, 1, 1)) (9, 8, 7)).frozenColor =
      (9, 8, 7) :=
  ⟨(frozen_state_invariant c4State 11 11 (7, 7, 7) (5, 5, 5) (1, 1, 1) (9, 8, 7)
      rfl (by norm_num [c4State, initialPickerState])
      (by norm_num [c4State, initialPickerState])).1.1,
   (frozen_state_invariant c4State 11 11 (7, 7, 7) (5, 5, 5) (1, 1, 1) (9, 8, 7)
      rfl (by norm_num [c4State, initialPickerState])
      (by norm_num [c4State, initialPickerState])).2.2.1⟩

/-- Witness for C5 at the all-failure environment, on an unrecognized
platform and on Linux. -/
theorem capture_all_fail_witness :
    getPlatformSpecificCursorColor "Haiku" allFailEnv = (0, 0, 0) ∧
    getPlatformSpecificCursorColor "Linux" allFailEnv = (0, 0, 0) :=
  ⟨capture_all_fail_black "Haiku" allFailEnv rfl rfl rfl rfl rfl,
   capture_all_fail_black "Linux" allFailEnv rfl rfl rfl rfl rfl⟩

/-- Witness for C6 at the achromatic input `(7, 7, 7)`. -/
theorem achromatic_witness :
    (∃ s l, rgbToHsl 7 7 7 = some (0, s, l)) ∧
    (∃ s v, rgbToHsv 7 7 7 = some (0, s, v)) ∧
    (∃ s i, rgbToHsi (fun _ _ => 0) 7 7 7 = some (0, s, i)) ∧
    (rgbToCmyk 7 7 7).isSome = true :=
  achromatic_safe 7 (fun _ _ => 0) (by decide)

/-- Witness for C7: a tick 10 ms after the previous effective tick is a
complete no-op that reschedules, and a tick whose display update raises
still reschedules. -/
theorem tick_rate_witness :
    updateColor c7State (1001/100) (5, 5, 5) false =
      { state := c7State, displayed := none, sampledCursor := false,
        rescheduled := true } ∧
    (updateColor c7State 11 (5, 5, 5) true).rescheduled = true :=
  ⟨(tick_rate_limited c7State (1001/100) 12 (5, 5, 5) (6, 6, 6) false true).1
      (by norm_num [c7State, initialPickerState]),
   (tick_rate_limited c7State 11 12 (5, 5, 5) (6, 6, 6) true true).2.1⟩

/-- Witness for C8: deleting index 1 of a two-entry history removes exactly
that entry, and deleting index `-3` changes nothing. -/
theorem delete_history_witness :
    (deleteHistoryEntry c8State 1).history =
      c8State.history.take (1 : ℤ).toNat ++
        c8State.history.drop ((1 : ℤ).toNat + 1) ∧
    deleteHistoryEntry c8State (-3) = c8State :=
  ⟨(delete_history_semantics c8State 1).1 (by decide) (by decide),
   (delete_history_semantics c8State (-3)).2 (Or.inl (by decide))⟩

/-- Witness for C9 at `(255, 10, 0)`. -/
theorem hexhtml_witness :
    (getColorValues 255 10 0).hexHtml = specHexHtml 255 10 0 :=
  hexhtml_matches_spec 255 10 0 (by decide) (by decide) (by decide)

/-- Witness for C10 at `(12, 0, 255)` from the initial (live) state. -/
theorem rgb_regex_witness :
    reSearchRGB (getColorValues 12 0 255).rgb.data = some (12, 0, 255) ∧
    (toggleFreeze initialPickerState (12, 0, 255)).frozenColor = (12, 0, 255) :=
  ⟨(rgb_regex_roundtrip initialPickerState 12 0 255 (by decide) (by decide)
      (by decide) rfl).1,
   (rgb_regex_roundtrip initialPickerState 12 0 255 (by decide) (by decide)
      (by decide) rfl).2.2⟩

end CPNG
